import Mathlib

/-!
Verification of the `VectorIndex` construct from
`src/cdk-lib/opensearch-vectorindex/vector-index.ts`.

The construct is a declarative builder: it reads a `VectorIndexProps`
value and emits (1) an OpenSearch Serverless access policy
(`CfnAccessPolicy`), (2) a CloudFormation custom-resource declaration
whose properties are the index payload, and (3) three dependency edges.
We embed the construct as a pure Lean function from the ambient stack
context (`StackEnv`) and the props to the emitted resource graph
(`VectorIndexResult`), translated line by line from the source.

JavaScript `||` default substitution is modelled by `jsOrString` /
`jsOrInt`: the left operand wins unless it is falsy (the empty string,
respectively the number 0).  `Record<string, any>` values are modelled
by a small JSON value type with a `stringify` function (objects in
JavaScript are always truthy, so `props.parameters || {}` only
substitutes the default when the property is absent).
-/

namespace VectorIndexSpec

/-- A JSON value, modelling the TypeScript `Record<string, any>` payload
fields and the values `JSON.stringify` is applied to. -/
inductive Json where
  | null : Json
  | bool : Bool → Json
  | num : Int → Json
  | str : String → Json
  | arr : List Json → Json
  | obj : List (String × Json) → Json

/-- Escape one character for a JSON string literal (quotes and
backslashes, the cases relevant to the emitted documents). -/
def escapeJsonChar (c : Char) : String :=
  if c = '\"' then "\\\"" else if c = '\\' then "\\\\" else c.toString

/-- Escape a string for inclusion in a JSON string literal. -/
def escapeJsonString (s : String) : String :=
  String.join (s.toList.map escapeJsonChar)

mutual

/-- `JSON.stringify` on `Json` values. -/
def stringifyJson : Json → String
  | .null => "null"
  | .bool true => "true"
  | .bool false => "false"
  | .num n => toString n
  | .str s => "\"" ++ escapeJsonString s ++ "\""
  | .arr xs => "[" ++ String.intercalate "," (stringifyJsonList xs) ++ "]"
  | .obj kvs => "\x7b" ++ String.intercalate "," (stringifyJsonKvs kvs) ++ "\x7d"

/-- Serialize each element of a JSON array. -/
def stringifyJsonList : List Json → List String
  | [] => []
  | x :: xs => stringifyJson x :: stringifyJsonList xs

/-- Serialize each key-value pair of a JSON object. -/
def stringifyJsonKvs : List (String × Json) → List String
  | [] => []
  | (k, v) :: kvs =>
      ("\"" ++ escapeJsonString k ++ "\":" ++ stringifyJson v) :: stringifyJsonKvs kvs

end

/-- JavaScript `o || d` for an optional string property: `undefined` and
the empty string (falsy) are replaced by the default. -/
def jsOrString (o : Option String) (d : String) : String :=
  match o with
  | none => d
  | some s => if s = "" then d else s

/-- JavaScript `o || d` for an optional numeric property: `undefined` and
`0` (falsy) are replaced by the default. -/
def jsOrInt (o : Option Int) (d : Int) : Int :=
  match o with
  | none => d
  | some n => if n = 0 then d else n

/-- JavaScript `o || {}` for an optional `Record<string, any>` property:
objects are always truthy, so only `undefined` is replaced. -/
def jsOrEmptyObj (o : Option Json) : Json :=
  match o with
  | none => Json.obj []
  | some v => v

/-- `CharacterFilterType` from `analysis-plugins.ts` is a string enum. -/
abbrev CharacterFilterType := String

/-- `TokenizerType` from `analysis-plugins.ts` is a string enum. -/
abbrev TokenizerType := String

/-- `TokenFilterType` from `analysis-plugins.ts` is a string enum. -/
abbrev TokenFilterType := String

/-- `MetadataManagementFieldProps`: one metadata field definition. -/
structure MetadataManagementFieldProps where
  mappingField : String
  dataType : String
  filterable : Bool
deriving DecidableEq

/-- `Analyzer`: character filters, a tokenizer, and token filters. -/
structure Analyzer where
  characterFilters : List CharacterFilterType
  tokenizer : TokenizerType
  tokenFilters : List TokenFilterType
deriving DecidableEq

/-- The fields of `VectorCollection` the constructor reads.  Its
`aossPolicy` and `dataAccessPolicy` members are referenced only as
dependency / managed-policy targets, modelled by `DepTarget` below. -/
structure VectorCollection where
  collectionName : String
  collectionId : String
deriving DecidableEq

/-- `VectorIndexProps`: the constructor's input descriptor.  Optional
TypeScript properties are `Option`; `Record<string, any>` is `Json`. -/
structure VectorIndexProps where
  collection : VectorCollection
  indexName : String
  vectorField : String
  vectorDimensions : Int
  mappings : List MetadataManagementFieldProps
  analyzer : Option Analyzer
  engine : Option String
  spaceType : Option String
  methodName : Option String
  parameters : Option Json
  numberOfShards : Option Int
  efSearch : Option Int
  customSettings : Option Json

/-- One rule of the emitted access-policy document. -/
structure PolicyRule where
  Resource : List String
  Permission : List String
  ResourceType : String
deriving DecidableEq

/-- One statement of the emitted access-policy document (the source
serializes the statement list with `JSON.stringify` for CloudFormation;
we keep it structured). -/
structure PolicyStatement where
  Rules : List PolicyRule
  Principal : List String
  Description : String
deriving DecidableEq

/-- The emitted `oss.CfnAccessPolicy` resource. -/
structure CfnAccessPolicy where
  name : String
  type : String
  policy : List PolicyStatement
deriving DecidableEq

/-- The `Analyzer` record of the custom-resource payload. -/
structure AnalyzerPayload where
  CharacterFilters : List CharacterFilterType
  Tokenizer : TokenizerType
  TokenFilters : List TokenFilterType
deriving DecidableEq

/-- One element of the payload's `MetadataManagement` list. -/
structure MetadataEntry where
  MappingField : String
  DataType : String
  Filterable : Bool
deriving DecidableEq

/-- The `properties` record of the `Custom::OpenSearchIndex` custom
resource. -/
structure IndexPayload where
  CollectionName : String
  Endpoint : String
  IndexName : String
  VectorField : String
  VectorDimension : Int
  Engine : String
  SpaceType : String
  MethodName : String
  Parameters : String
  NumberOfShards : Int
  EfSearch : Int
  CustomSettings : String
  MetadataManagement : List MetadataEntry
  Analyzer : Option AnalyzerPayload
deriving DecidableEq

/-- Targets of the `vectorIndex.node.addDependency` calls. -/
inductive DepTarget where
  | manageIndexPolicy : DepTarget
  | collection : DepTarget
  | dataAccessPolicy : DepTarget
deriving DecidableEq

/-- Ambient stack / provider context the constructor reads besides
`props`: the stack region, the custom-resource provider's role ARN and
service token (from `OpenSearchIndexCRProvider.getProvider`), and the
physical policy name produced by `generatePhysicalNameV2`. -/
structure StackEnv where
  region : String
  providerRoleArn : String
  serviceToken : String
  manageIndexPolicyName : String
deriving DecidableEq

/-- Everything the `VectorIndex` constructor emits: the public readonly
fields, the access policy, the custom resource (payload, resource type,
service token), and the dependency edges in call order. -/
structure VectorIndexResult where
  indexName : String
  vectorField : String
  vectorDimensions : Int
  manageIndexPolicy : CfnAccessPolicy
  payload : IndexPayload
  resourceType : String
  serviceToken : String
  dependencies : List DepTarget
deriving DecidableEq

/-- The policy document built inline in the `oss.CfnAccessPolicy`
declaration (vector-index.ts lines 167 to 189). -/
def manageIndexPolicyDoc (env : StackEnv) (p : VectorIndexProps) : List PolicyStatement :=
  [{ Rules :=
      [{ Resource := ["index/" ++ p.collection.collectionName ++ "/*"],
         Permission :=
          ["aoss:DescribeIndex", "aoss:CreateIndex", "aoss:DeleteIndex", "aoss:UpdateIndex"],
         ResourceType := "index" },
       { Resource := ["collection/" ++ p.collection.collectionName],
         Permission := ["aoss:DescribeCollectionItems"],
         ResourceType := "collection" }],
     Principal := [env.providerRoleArn],
     Description := "" }]

/-- The `analyzerProps` local of the constructor (lines 193 to 199). -/
def analyzerProps (p : VectorIndexProps) : Option AnalyzerPayload :=
  match p.analyzer with
  | some a =>
      some { CharacterFilters := a.characterFilters,
             Tokenizer := a.tokenizer,
             TokenFilters := a.tokenFilters }
  | none => none

/-- The `VectorIndex` constructor (lines 146 to 229), as a pure function
from the ambient stack context and the props to the emitted resources. -/
def constructVectorIndex (env : StackEnv) (p : VectorIndexProps) : VectorIndexResult :=
  { indexName := p.indexName,
    vectorField := p.vectorField,
    vectorDimensions := p.vectorDimensions,
    manageIndexPolicy :=
      { name := env.manageIndexPolicyName,
        type := "data",
        policy := manageIndexPolicyDoc env p },
    payload :=
      { CollectionName := p.collection.collectionName,
        Endpoint :=
          p.collection.collectionId ++ "." ++ env.region ++ ".aoss.amazonaws.com",
        IndexName := p.indexName,
        VectorField := p.vectorField,
        VectorDimension := p.vectorDimensions,
        Engine := jsOrString p.engine "faiss",
        SpaceType := jsOrString p.spaceType "l2",
        MethodName := jsOrString p.methodName "hnsw",
        Parameters := stringifyJson (jsOrEmptyObj p.parameters),
        NumberOfShards := jsOrInt p.numberOfShards 2,
        EfSearch := jsOrInt p.efSearch 512,
        CustomSettings := stringifyJson (jsOrEmptyObj p.customSettings),
        MetadataManagement :=
          p.mappings.map
            (fun m =>
              { MappingField := m.mappingField,
                DataType := m.dataType,
                Filterable := m.filterable }),
        Analyzer := analyzerProps p },
    resourceType := "Custom::OpenSearchIndex",
    serviceToken := env.serviceToken,
    dependencies :=
      [DepTarget.manageIndexPolicy, DepTarget.collection, DepTarget.dataAccessPolicy] }

/-- The constructor with the props state threaded through explicitly:
the source only ever reads `props` (every access is a property read and
all interface fields are `readonly`), so the final props value is the
initial one. -/
def constructVectorIndexState (env : StackEnv) (p : VectorIndexProps) :
    VectorIndexResult × VectorIndexProps :=
  (constructVectorIndex env p, p)

/-- A custom-resource provider: the role ARN and service token the
`VectorIndex` constructor reads off it. -/
structure CRProvider where
  roleArn : String
  serviceToken : String
deriving DecidableEq

/-- Per-stack state for the provider factory: the stack identity and the
cached provider, if one was already created in this stack. -/
structure ProviderStackState where
  stackName : String
  providerCache : Option CRProvider
deriving DecidableEq

/-- Modelled from the spec: the provider construction performed by
`buildCustomResourceProvider` (defined in
`common/helpers/custom-resource-provider-helper.ts`, which is not part
of this excerpt) — it creates a custom-resource provider backed by a
Lambda function inside the given stack. -/
def createProvider (s : ProviderStackState) : CRProvider :=
  { roleArn := s.stackName ++ "/OpenSearchIndexCRProvider/Role",
    serviceToken := s.stackName ++ "/OpenSearchIndexCRProvider/ServiceToken" }

/-- Modelled from the spec: `OpenSearchIndexCRProvider.getProvider` is a
shared singleton factory — it creates the provider lazily on the first
call within a stack, caches it in the stack, and returns the cached
instance on every subsequent call. -/
def getProvider (s : ProviderStackState) : CRProvider × ProviderStackState :=
  match s.providerCache with
  | some p => (p, s)
  | none =>
      let p := createProvider s
      (p, { s with providerCache := some p })

/-! Concrete sample inputs used by counterexamples and witnesses. -/

/-- A sample ambient stack context. -/
def sampleEnv : StackEnv :=
  { region := "us-east-1",
    providerRoleArn := "arn:aws:iam::123456789012:role/cr-provider",
    serviceToken := "token-abc",
    manageIndexPolicyName := "manageindexpolicyabc123" }

/-- A sample collection. -/
def sampleCollection : VectorCollection :=
  { collectionName := "demo-collection", collectionId := "abc123" }

/-- Props with every optional property omitted. -/
def samplePropsAllDefaults : VectorIndexProps :=
  { collection := sampleCollection,
    indexName := "demo-index",
    vectorField := "vector",
    vectorDimensions := 1536,
    mappings := [],
    analyzer := none,
    engine := none,
    spaceType := none,
    methodName := none,
    parameters := none,
    numberOfShards := none,
    efSearch := none,
    customSettings := none }

/-- Props supplying `engine` as the defined (but falsy) empty string. -/
def samplePropsEngineEmpty : VectorIndexProps :=
  { samplePropsAllDefaults with engine := some "" }

/-- Props supplying every `||`-defaulted property with a falsy value. -/
def samplePropsFalsy : VectorIndexProps :=
  { samplePropsAllDefaults with
    engine := some "",
    spaceType := some "",
    methodName := some "",
    numberOfShards := some 0,
    efSearch := some 0 }

/-- Props supplying every optional property with a truthy value. -/
def samplePropsSupplied : VectorIndexProps :=
  { collection := sampleCollection,
    indexName := "demo-index",
    vectorField := "vector",
    vectorDimensions := 1536,
    mappings := [{ mappingField := "title", dataType := "text", filterable := true }],
    analyzer :=
      some { characterFilters := ["icu_normalizer"],
             tokenizer := "kuromoji_tokenizer",
             tokenFilters := ["kuromoji_baseform", "ja_stop"] },
    engine := some "nmslib",
    spaceType := some "cosinesimil",
    methodName := some "ivf",
    parameters := some (Json.obj [("ef_construction", Json.num 256)]),
    numberOfShards := some 4,
    efSearch := some 128,
    customSettings := some (Json.obj [("index.knn", Json.bool true)]) }

/-- The serialization of the empty JSON object. -/
theorem stringifyJson_empty_obj : stringifyJson (Json.obj []) = "\x7b\x7d" := rfl

/-- Claim C1 (counterexample): the claim as stated is false — `engine`
supplied with the defined value `""` does not appear in the payload;
the payload carries the default `"faiss"` instead. -/
theorem claim1_counterexample :
    samplePropsEngineEmpty.engine = some "" ∧
    (constructVectorIndex sampleEnv samplePropsEngineEmpty).payload.Engine ≠ "" :=
  ⟨rfl, by decide⟩

/-- Claim C1 (amended): when engine, spaceType, methodName, parameters,
numberOfShards, efSearch and customSettings are all omitted, the payload
carries Engine = 'faiss', SpaceType = 'l2', MethodName = 'hnsw',
Parameters = the serialization of the empty object, NumberOfShards = 2,
EfSearch = 512 and CustomSettings = the serialization of the empty
object; and any supplied truthy value (a nonempty string for engine,
spaceType and methodName, a nonzero number for numberOfShards and
efSearch, and any defined object for parameters and customSettings)
appears in the corresponding payload field. -/
theorem claim1_payload_defaults_and_truthy_values (env : StackEnv) (p : VectorIndexProps) :
    (p.engine = none → (constructVectorIndex env p).payload.Engine = "faiss") ∧
    (p.spaceType = none → (constructVectorIndex env p).payload.SpaceType = "l2") ∧
    (p.methodName = none → (constructVectorIndex env p).payload.MethodName = "hnsw") ∧
    (p.parameters = none → (constructVectorIndex env p).payload.Parameters = "\x7b\x7d") ∧
    (p.numberOfShards = none → (constructVectorIndex env p).payload.NumberOfShards = 2) ∧
    (p.efSearch = none → (constructVectorIndex env p).payload.EfSearch = 512) ∧
    (p.customSettings = none →
      (constructVectorIndex env p).payload.CustomSettings = "\x7b\x7d") ∧
    (∀ s, s ≠ "" → p.engine = some s → (constructVectorIndex env p).payload.Engine = s) ∧
    (∀ s, s ≠ "" → p.spaceType = some s →
      (constructVectorIndex env p).payload.SpaceType = s) ∧
    (∀ s, s ≠ "" → p.methodName = some s →
      (constructVectorIndex env p).payload.MethodName = s) ∧
    (∀ v, p.parameters = some v →
      (constructVectorIndex env p).payload.Parameters = stringifyJson v) ∧
    (∀ n, n ≠ 0 → p.numberOfShards = some n →
      (constructVectorIndex env p).payload.NumberOfShards = n) ∧
    (∀ n, n ≠ 0 → p.efSearch = some n →
      (constructVectorIndex env p).payload.EfSearch = n) ∧
    (∀ v, p.customSettings = some v →
      (constructVectorIndex env p).payload.CustomSettings = stringifyJson v) := by
  refine ⟨fun h => ?_, fun h => ?_, fun h => ?_, fun h => ?_, fun h => ?_, fun h => ?_,
    fun h => ?_, fun s hs h => ?_, fun s hs h => ?_, fun s hs h => ?_, fun v h => ?_,
    fun n hn h => ?_, fun n hn h => ?_, fun v h => ?_⟩ <;>
  simp_all [constructVectorIndex, jsOrString, jsOrInt, jsOrEmptyObj,
    stringifyJson_empty_obj]

/-- Claim C1 (witness): concrete evaluations of the amended claim — the
defaults at all-omitted props, and supplied truthy values passed through. -/
theorem claim1_witness :
    (constructVectorIndex sampleEnv samplePropsAllDefaults).payload.Engine = "faiss" ∧
    (constructVectorIndex sampleEnv samplePropsAllDefaults).payload.NumberOfShards = 2 ∧
    (constructVectorIndex sampleEnv samplePropsSupplied).payload.Engine = "nmslib" ∧
    (constructVectorIndex sampleEnv samplePropsSupplied).payload.EfSearch = 128 := by
  obtain ⟨a1, a2, a3, a4, a5, a6, a7, a8, a9, a10, a11, a12, a13, a14⟩ :=
    claim1_payload_defaults_and_truthy_values sampleEnv samplePropsAllDefaults
  obtain ⟨b1, b2, b3, b4, b5, b6, b7, b8, b9, b10, b11, b12, b13, b14⟩ :=
    claim1_payload_defaults_and_truthy_values sampleEnv samplePropsSupplied
  exact ⟨a1 rfl, a5 rfl, b8 "nmslib" (by decide) rfl, b13 128 (by decide) rfl⟩

/-- Claim C2: the constructor declares exactly three dependency edges on
the custom resource, in order: the manage-index access policy, the
collection, and the collection's data access policy. -/
theorem claim2_dependency_edges (env : StackEnv) (p : VectorIndexProps) :
    (constructVectorIndex env p).dependencies =
      [DepTarget.manageIndexPolicy, DepTarget.collection, DepTarget.dataAccessPolicy] :=
  rfl

/-- Claim C3: the emitted access policy has type 'data' and its document
is a single statement whose sole principal is the provider's role ARN,
granting DescribeIndex, CreateIndex, DeleteIndex and UpdateIndex on
'index/<collectionName>/*' (ResourceType 'index') and
DescribeCollectionItems on 'collection/<collectionName>' (ResourceType
'collection'). -/
theorem claim3_access_policy (env : StackEnv) (p : VectorIndexProps) :
    (constructVectorIndex env p).manageIndexPolicy.type = "data" ∧
    (constructVectorIndex env p).manageIndexPolicy.policy =
      [{ Rules :=
          [{ Resource := ["index/" ++ p.collection.collectionName ++ "/*"],
             Permission :=
              ["aoss:DescribeIndex", "aoss:CreateIndex", "aoss:DeleteIndex",
               "aoss:UpdateIndex"],
             ResourceType := "index" },
           { Resource := ["collection/" ++ p.collection.collectionName],
             Permission := ["aoss:DescribeCollectionItems"],
             ResourceType := "collection" }],
         Principal := [env.providerRoleArn],
         Description := "" }] :=
  ⟨rfl, rfl⟩

/-- Claim C4: no validation — for every vectorDimensions (zero and
negative included) and every mappings list the constructor succeeds,
passes vectorDimensions through unchanged as VectorDimension, and maps
mappings elementwise, in order and preserving length, into
MetadataManagement. -/
theorem claim4_unvalidated_passthrough (env : StackEnv) (p : VectorIndexProps) :
    (constructVectorIndex env p).payload.VectorDimension = p.vectorDimensions ∧
    (constructVectorIndex env p).payload.MetadataManagement =
      p.mappings.map
        (fun m =>
          { MappingField := m.mappingField,
            DataType := m.dataType,
            Filterable := m.filterable }) ∧
    (constructVectorIndex env p).payload.MetadataManagement.length = p.mappings.length := by
  refine ⟨rfl, rfl, ?_⟩
  simp [constructVectorIndex]

/-- Claim C5: with a defined analyzer the payload's Analyzer field is the
record of its character filters, tokenizer and token filters in order;
with analyzer undefined the payload's Analyzer field is undefined. -/
theorem claim5_analyzer (env : StackEnv) (p : VectorIndexProps) :
    (∀ a, p.analyzer = some a →
      (constructVectorIndex env p).payload.Analyzer =
        some { CharacterFilters := a.characterFilters,
               Tokenizer := a.tokenizer,
               TokenFilters := a.tokenFilters }) ∧
    (p.analyzer = none → (constructVectorIndex env p).payload.Analyzer = none) := by
  constructor
  · intro a h
    simp [constructVectorIndex, analyzerProps, h]
  · intro h
    simp [constructVectorIndex, analyzerProps, h]

/-- Claim C5 (witness): concrete evaluations of both analyzer cases. -/
theorem claim5_witness :
    (constructVectorIndex sampleEnv samplePropsSupplied).payload.Analyzer =
      some { CharacterFilters := ["icu_normalizer"],
             Tokenizer := "kuromoji_tokenizer",
             TokenFilters := ["kuromoji_baseform", "ja_stop"] } ∧
    (constructVectorIndex sampleEnv samplePropsAllDefaults).payload.Analyzer = none :=
  ⟨(claim5_analyzer sampleEnv samplePropsSupplied).1 _ rfl,
   (claim5_analyzer sampleEnv samplePropsAllDefaults).2 rfl⟩

/-- Claim C6: getProvider is a lazy singleton per stack — on a stack
with no cached provider it creates one, and a second call on the
resulting stack state returns the same provider and the same state. -/
theorem claim6_singleton (s : ProviderStackState) :
    (s.providerCache = none → (getProvider s).1 = createProvider s) ∧
    getProvider (getProvider s).2 = ((getProvider s).1, (getProvider s).2) := by
  constructor
  · intro h
    simp [getProvider, h]
  · cases hc : s.providerCache <;> simp [getProvider, hc]

/-- Claim C6 (witness): concrete evaluation on a fresh stack state. -/
theorem claim6_witness :
    (ProviderStackState.mk "StackA" none).providerCache = none ∧
    (getProvider ⟨"StackA", none⟩).1 = createProvider ⟨"StackA", none⟩ ∧
    getProvider (getProvider ⟨"StackA", none⟩).2 =
      ((getProvider ⟨"StackA", none⟩).1, (getProvider ⟨"StackA", none⟩).2) :=
  ⟨rfl, (claim6_singleton ⟨"StackA", none⟩).1 rfl, (claim6_singleton ⟨"StackA", none⟩).2⟩

/-- Claim C7: the constructor never mutates the props — threading the
props state through the construction returns it unchanged. -/
theorem claim7_props_unchanged (env : StackEnv) (p : VectorIndexProps) :
    (constructVectorIndexState env p).2 = p :=
  rfl

/-- Claim C8: the constructor is deterministic and performs no I/O — any
two runs on equal ambient stack contexts and equal props emit equal
results (payload, access policy, and dependency edges alike). -/
theorem claim8_deterministic (env₁ env₂ : StackEnv) (p₁ p₂ : VectorIndexProps)
    (henv : env₁ = env₂) (hp : p₁ = p₂) :
    constructVectorIndex env₁ p₁ = constructVectorIndex env₂ p₂ := by
  subst henv
  subst hp
  rfl

/-- Claim C8 (witness): concrete evaluation of determinism. -/
theorem claim8_witness :
    constructVectorIndex sampleEnv samplePropsAllDefaults =
      constructVectorIndex sampleEnv samplePropsAllDefaults :=
  claim8_deterministic sampleEnv sampleEnv samplePropsAllDefaults samplePropsAllDefaults
    rfl rfl

/-- Claim C9: JavaScript `||` replaces explicitly supplied falsy values
with the defaults — shards 0 becomes 2, efSearch 0 becomes 512, and the
empty string for engine, spaceType or methodName becomes 'faiss', 'l2'
or 'hnsw' respectively. -/
theorem claim9_falsy_defaults (env : StackEnv) (p : VectorIndexProps) :
    (p.numberOfShards = some 0 → (constructVectorIndex env p).payload.NumberOfShards = 2) ∧
    (p.efSearch = some 0 → (constructVectorIndex env p).payload.EfSearch = 512) ∧
    (p.engine = some "" → (constructVectorIndex env p).payload.Engine = "faiss") ∧
    (p.spaceType = some "" → (constructVectorIndex env p).payload.SpaceType = "l2") ∧
    (p.methodName = some "" → (constructVectorIndex env p).payload.MethodName = "hnsw") := by
  refine ⟨fun h => ?_, fun h => ?_, fun h => ?_, fun h => ?_, fun h => ?_⟩ <;>
  simp [constructVectorIndex, jsOrInt, jsOrString, h]

/-- Claim C9 (witness): concrete evaluation at props supplying every
falsy value. -/
theorem claim9_witness :
    (constructVectorIndex sampleEnv samplePropsFalsy).payload.NumberOfShards = 2 ∧
    (constructVectorIndex sampleEnv samplePropsFalsy).payload.EfSearch = 512 ∧
    (constructVectorIndex sampleEnv samplePropsFalsy).payload.Engine = "faiss" ∧
    (constructVectorIndex sampleEnv samplePropsFalsy).payload.SpaceType = "l2" ∧
    (constructVectorIndex sampleEnv samplePropsFalsy).payload.MethodName = "hnsw" := by
  obtain ⟨h1, h2, h3, h4, h5⟩ := claim9_falsy_defaults sampleEnv samplePropsFalsy
  exact ⟨h1 rfl, h2 rfl, h3 rfl, h4 rfl, h5 rfl⟩

/-- Claim C10: the public readonly fields equal the corresponding props
inputs after construction. -/
theorem claim10_readonly_fields (env : StackEnv) (p : VectorIndexProps) :
    (constructVectorIndex env p).indexName = p.indexName ∧
    (constructVectorIndex env p).vectorField = p.vectorField ∧
    (constructVectorIndex env p).vectorDimensions = p.vectorDimensions :=
  ⟨rfl, rfl, rfl⟩

end VectorIndexSpec
